import Mathlib

/-!
Verification development for the AWS Ops Automator action execution engine
(`source/code/actions/*.py`).  The Python actions are shallowly embedded:
dictionaries become structures, UTC datetimes become integer second counts,
`timedelta(days = d)` becomes `d * 86400` seconds, a raised exception becomes
`Except.error`, and a boto3 call that can fail is abstracted by a function or
flag supplied as a parameter.  `sorted(..., reverse=True)` (a stable sort) is
embedded as `List.insertionSort` with the dual (descending) total preorder,
which is also a stable sort, so it computes the same list.
-/

namespace OpsAutomator

/-- Python truthiness of an optional integer parameter value
(`parameters.get(...)` returns `None` or an `int`; both `None` and `0` are
falsy).  Used by `action_validate_parameters` and by the
`by_retention_days() if self._retention_days_ else by_retention_count()`
dispatch in `execute`. -/
def pythonTruthy : Option Nat → Bool
  | none => false
  | some n => n != 0

/-! ## `dynamodb_delete_backup_action.py` -/

namespace DynamodbDeleteBackup

/-- Error message `ERR_RETENTION_PARAM_BOTH` (format placeholders dropped). -/
def ERR_RETENTION_PARAM_BOTH : String := "Only one of the parameters can be specified"

/-- Error message `ERR_RETENTION_PARAM_NONE` (format placeholders dropped). -/
def ERR_RETENTION_PARAM_NONE : String := "One of the parameters must be specified"

/-- Embeds `DynamodbDeleteBackupAction.action_validate_parameters`
(lines 110-121; the EC2 and RDS delete actions contain the identical code).
`raise_value_error` is not under `src/`; modelled from the spec:
a configuration error is fatal and surfaced, so it is embedded as
`Except.error`.  The Python tests are `if not retention_count and not
retention_days` and `if retention_days and retention_count`, i.e. plain
truthiness: an absent parameter and a `0` value are both falsy. -/
def action_validate_parameters (days count : Option Nat) :
    Except String (Option Nat × Option Nat) :=
  if !pythonTruthy count && !pythonTruthy days then
    Except.error ERR_RETENTION_PARAM_NONE
  else if pythonTruthy days && pythonTruthy count then
    Except.error ERR_RETENTION_PARAM_BOTH
  else
    Except.ok (days, count)

/-- A DynamoDB table backup record, as listed by `_table_backups`
(`BackupSummaries` entries with status `AVAILABLE`).  `time` embeds
`BackupCreationDateTime` as seconds, already normalized to UTC by the
`replace(tzinfo=pytz.timezone("UTC"))` calls in `execute`. -/
structure Backup where
  name : String
  arn : String
  time : Int
deriving DecidableEq, Repr

/-- Embeds the `by_retention_days` generator of
`DynamodbDeleteBackupAction.execute` (lines 173-185): the cutoff is
`utcnow - timedelta(days=retention_days)` and a backup is yielded exactly
when its creation time is strictly before the cutoff.  `now` is the value of
`self._datetime_.utcnow()` in seconds. -/
def by_retention_days (table_backups : List Backup) (now : Int) (days : Nat) :
    List Backup :=
  table_backups.filter (fun bk => bk.time < now - days * 86400)

/-- Descending order on backup creation time used by `by_retention_count`:
`sorted(table_backups, key=lambda b: b["BackupCreationDateTime"],
reverse=True)`. -/
def timeGE (a b : Backup) : Prop := b.time ≤ a.time

instance : DecidableRel timeGE := fun a b => inferInstanceAs (Decidable (b.time ≤ a.time))

instance : IsTotal Backup timeGE := ⟨fun a b => le_total b.time a.time⟩

instance : IsTrans Backup timeGE := ⟨fun _ _ _ h h2 => le_trans h2 h⟩

/-- The counting loop of `by_retention_count` (lines 193-199):
`count_for_table` starts at `0`, is incremented per backup of the sorted
list, and the backup is yielded when the counter exceeds the retention
count. -/
def countLoop (n : Nat) : List Backup → Nat → List Backup
  | [], _ => []
  | bk :: rest, count_for_table =>
    if n < count_for_table + 1 then bk :: countLoop n rest (count_for_table + 1)
    else countLoop n rest (count_for_table + 1)

/-- Embeds the `by_retention_count` generator of
`DynamodbDeleteBackupAction.execute` (lines 187-199): backups of the table
are sorted by creation time descending and every backup after the first
`n` is yielded. -/
def by_retention_count (table_backups : List Backup) (n : Nat) : List Backup :=
  countLoop n (List.insertionSort timeGE table_backups) 0

/-- Embeds the `backups_to_delete` dispatch of `execute` (line 201):
`by_retention_days() if self._retention_days_ else by_retention_count()`,
again Python truthiness. -/
def backups_to_delete (table_backups : List Backup) (days count : Option Nat)
    (now : Int) : List Backup :=
  if pythonTruthy days then by_retention_days table_backups now (days.getD 0)
  else by_retention_count table_backups (count.getD 0)

/-- Embeds the deletion loop of `DynamodbDeleteBackupAction.execute`
(lines 210-216): each backup of the deletion set is attempted with
`delete_backup`; the call is abstracted by `del_call`, whose `Except.error`
case embeds any raised exception.  The `except Exception` handler logs the
error and the loop continues, so the function returns the `deleted` list
(the successful deletions, in order) and the logged errors. -/
def execute_deletions (toDelete : List Backup)
    (del_call : Backup → Except String Unit) :
    List Backup × List (Backup × String) :=
  match toDelete with
  | [] => ([], [])
  | bk :: rest =>
    match del_call bk with
    | Except.ok _ =>
      let r := execute_deletions rest del_call
      (bk :: r.1, r.2)
    | Except.error e =>
      let r := execute_deletions rest del_call
      (r.1, (bk, e) :: r.2)

/-- Embeds `DynamodbDeleteBackupAction.execute` (lines 203-225) up to the
returned result: the deletion set is computed by `backups_to_delete` and
the deletion loop produces the value of the `backups-deleted` result key. -/
def execute (table_backups : List Backup) (days count : Option Nat) (now : Int)
    (del_call : Backup → Except String Unit) :
    List Backup × List (Backup × String) :=
  execute_deletions (backups_to_delete table_backups days count now) del_call

end DynamodbDeleteBackup

/-! ## `ec2_terminate_instance_action.py` -/

namespace Ec2TerminateInstance

/-- `EC2_STATE_TERMINATED` (line 31). -/
def EC2_STATE_TERMINATED : Nat := 48

/-- `EC2_STATE_SHUTTING_DOWN` (line 32). -/
def EC2_STATE_SHUTTING_DOWN : Nat := 32

/-- `EC2_STATE_STOPPING` (line 33). -/
def EC2_STATE_STOPPING : Nat := 64

/-- Error message `ERR_SETTING_INSTANCE_TAGS` (placeholders dropped). -/
def ERR_SETTING_INSTANCE_TAGS : String := "Error setting tags to terminated instance"

/-- Error message `ERR_SETTING_LAUNCH_PERMISSIONS` (placeholders dropped). -/
def ERR_SETTING_LAUNCH_PERMISSIONS : String := "Error setting launch permissions for accounts"

/-- Error message `ERR_CREATING_IMAGE` (placeholders dropped). -/
def ERR_CREATING_IMAGE : String := "Creation of image for terminated instance failed"

/-- Message of the exception raised by `_terminate_instance` (line 490,
placeholders dropped). -/
def ERR_TERMINATING_INSTANCE : String := "Error terminating instance"

/-- The `datetime` field of the JSON value stored in the
`ops-automator:Ec2TerminateInstance` marker tag, as seen by
`process_and_select_resource` (lines 290-296).  `dateutil.parser.parse` is
third-party, so the parse result is embedded abstractly: `parsed t` is a
value that parses to time `t`, `unparsable` is a present value whose parse
raises, and `missing` is an absent field (the code then parses
`utcnow().isoformat()`, which parses to the current time). -/
inductive MarkerDt where
  | missing
  | unparsable
  | parsed (t : Int)
deriving DecidableEq, Repr

/-- Embeds `Ec2TerminateInstanceAction.process_and_select_resource`
(lines 284-308).  `marker` is the content of the termination marker tag if
present (`none` when the tag is absent), `now` is
`date_time_provider().utcnow()` in seconds and `timeoutMin` the task timeout
in minutes.  Returns `true` when the resource is returned to the scheduler
(the caller proceeds with it) and `false` when `None` is returned (the
resource is skipped).  Per the code, an absent or unparsable `datetime`
value falls back to `utcnow()`, so `dt = now` in those cases. -/
def process_and_select_resource (marker : Option MarkerDt) (now timeoutMin : Int) :
    Bool :=
  match marker with
  | some field =>
    let dt : Int :=
      match field with
      | MarkerDt.parsed t => t
      | MarkerDt.missing => now
      | MarkerDt.unparsable => now
    if now - dt < timeoutMin * 60 then false else true
  | none => true

/-- The externally visible calls issued by `execute` and `is_completed` of
`Ec2TerminateInstanceAction`, in issue order. -/
inductive Eff where
  | setTerminationMarker
  | createImage
  | setInstanceTags
  | deleteMarker
  | grantLaunchAccess
  | terminateInstances
deriving DecidableEq, Repr

/-- Embeds the call sequence of `Ec2TerminateInstanceAction.execute`
(lines 492-524): `set_in_termination_tag()` always writes a fresh marker
first, then either `_create_image` (when `CreateImage` is set) or
`_terminate_instance` is issued. -/
def execute_effects (create_image : Bool) : List Eff :=
  Eff.setTerminationMarker ::
    (if create_image then [Eff.createImage] else [Eff.terminateInstances])

/-- The terminal behaviour of one `is_completed` poll: `success` embeds
`return self.result`, `pending` embeds `return None`, and `failed msg`
embeds a raised exception with message `msg`. -/
inductive Outcome where
  | success
  | pending
  | failed (msg : String)
deriving DecidableEq, Repr

/-- The environment of one `is_completed` poll: the provider data it reads
and the outcome of each fallible boto3 call it may issue.
`instStateCode` is `instance["State"]["Code"]`; `imageState` is the state
string of the image looked up by id (`none` when the image is not found
yet); `hasInstanceTags` tells whether `build_tags_from_template` produced a
non-empty tag set in `_create_terminated_instance_tags`;
`launchAccessAccounts` is the length of the `AccountsLaunchAccess`
parameter list; `tagSetOk`, `grantOk` and `terminateOk` give the outcome of
the corresponding AWS calls (`false` embeds a raised exception). -/
structure PollEnv where
  instStateCode : Nat
  create_image : Bool
  imageState : Option String
  hasInstanceTags : Bool
  tagSetOk : Bool
  launchAccessAccounts : Nat
  grantOk : Bool
  terminateOk : Bool
deriving DecidableEq, Repr

/-- Embeds `Ec2TerminateInstanceAction.is_completed` (lines 354-411)
together with the helpers it calls (`_create_terminated_instance_tags`,
`_grant_launch_access`, `_delete_instance_marker_tag`,
`_terminate_instance`).  Returns the list of calls issued, in order, and
the outcome of the poll.  The state code is masked with `& 0xFF` as in
line 362.  In `_create_terminated_instance_tags` and
`_grant_launch_access` a failing AWS call is re-raised via
`raise_exception` (not under `src/`; modelled from the spec: errors are
surfaced, so it is embedded as a `failed` outcome). -/
def is_completed (e : PollEnv) : List Eff × Outcome :=
  if e.instStateCode % 256 = EC2_STATE_TERMINATED then
    -- `_create_terminated_instance_tags` then `return self.result`
    if e.hasInstanceTags then
      if e.tagSetOk then ([Eff.setInstanceTags], Outcome.success)
      else ([Eff.setInstanceTags], Outcome.failed ERR_SETTING_INSTANCE_TAGS)
    else ([], Outcome.success)
  else if e.instStateCode % 256 = EC2_STATE_SHUTTING_DOWN
      ∨ e.instStateCode % 256 = EC2_STATE_STOPPING then
    ([], Outcome.pending)
  else if e.create_image then
    match e.imageState with
    | none => ([], Outcome.pending)
    | some status =>
      if status = "pending" then ([], Outcome.pending)
      else if status = "failed" ∨ status = "error" ∨ status = "invalid" then
        ([Eff.deleteMarker], Outcome.failed ERR_CREATING_IMAGE)
      else if status = "available" then
        -- `_grant_launch_access`, then `_terminate_instance`, then
        -- fall through to `return None`
        if e.launchAccessAccounts ≠ 0 then
          if e.grantOk then
            if e.terminateOk then
              ([Eff.grantLaunchAccess, Eff.terminateInstances], Outcome.pending)
            else
              ([Eff.grantLaunchAccess, Eff.terminateInstances, Eff.deleteMarker],
                Outcome.failed ERR_TERMINATING_INSTANCE)
          else ([Eff.grantLaunchAccess], Outcome.failed ERR_SETTING_LAUNCH_PERMISSIONS)
        else
          if e.terminateOk then ([Eff.terminateInstances], Outcome.pending)
          else ([Eff.terminateInstances, Eff.deleteMarker],
            Outcome.failed ERR_TERMINATING_INSTANCE)
      else ([], Outcome.pending)
  else ([], Outcome.pending)

end Ec2TerminateInstance

/-! ## `ec2_delete_image_action.py`: `get_creation_time` -/

namespace Ec2DeleteImage

/-- A value held under a timestamp key of a resource record: either a
structured `datetime` (embedded as seconds) or an ISO-8601 string. -/
inductive TimeValue where
  | dt (t : Int)
  | str (s : String)
deriving DecidableEq, Repr

/-- An image record as produced by `ACTION_SELECT_EXPRESSION` (lines 70-71):
the record carries `ImageId`, `CreationDate`, `Tags` and `Snapshots` only.
`startTime` embeds the optional `StartTime` key, which that select
expression never produces, hence `none` for every record this action
receives. -/
structure ImageRecord where
  imageId : String
  creationDate : TimeValue
  startTime : Option TimeValue
deriving DecidableEq, Repr

/-- Embeds `get_creation_time` of `Ec2DeleteImageAction.execute`
(lines 216-219): when `CreationDate` is a structured datetime the code
returns `s["StartTime"]`, a dictionary access that raises `KeyError` when
the key is absent (`Except.error`); otherwise it returns
`dateutil.parser.parse(s["CreationDate"])`, with the third-party parser
abstracted by `parse`. -/
def get_creation_time (parse : String → Int) (s : ImageRecord) :
    Except String Int :=
  match s.creationDate with
  | TimeValue.dt _ =>
    match s.startTime with
    | some (TimeValue.dt t) => Except.ok t
    | some (TimeValue.str v) => Except.ok (parse v)
    | none => Except.error "KeyError: StartTime"
  | TimeValue.str v => Except.ok (parse v)

end Ec2DeleteImage

/-! ## Count-mode retention selector

The RDS snapshot and EC2 image delete actions contain the same
`by_retention_count` generator: the resources are sorted by
`(owner key, creation time)` with `reverse=True` and iterated with a counter
that resets whenever the owner key changes; a resource is yielded when the
counter exceeds the retention count.  The sort and the loop are embedded
once, parameterized by the owner key. -/

/-- The descending lexicographic order on `(key, time)` realized by
`sorted(resources, key=lambda s: (key(s), time(s)), reverse=True)`:
`a` comes before `b` when the key pair of `b` is at most that of `a`. -/
def lexKeyGE {α : Type} (key : α → String) (time : α → Int) (a b : α) : Prop :=
  key b < key a ∨ (key b = key a ∧ time b ≤ time a)

instance {α : Type} (key : α → String) (time : α → Int) :
    DecidableRel (lexKeyGE key time) := fun a b =>
  inferInstanceAs (Decidable (key b < key a ∨ (key b = key a ∧ time b ≤ time a)))

instance {α : Type} (key : α → String) (time : α → Int) :
    IsTrans α (lexKeyGE key time) := by
  constructor
  intro a b c hab hbc
  rcases hab with h | ⟨he, ht⟩ <;> rcases hbc with h2 | ⟨he2, ht2⟩
  · exact Or.inl (lt_trans h2 h)
  · exact Or.inl (he2 ▸ h)
  · exact Or.inl (he ▸ h2)
  · exact Or.inr ⟨he2.trans he, le_trans ht2 ht⟩

instance {α : Type} (key : α → String) (time : α → Int) :
    IsTotal α (lexKeyGE key time) := by
  constructor
  intro a b
  rcases lt_trichotomy (key a) (key b) with h | h | h
  · exact Or.inr (Or.inl h)
  · rcases le_total (time a) (time b) with ht | ht
    · exact Or.inr (Or.inr ⟨h, ht⟩)
    · exact Or.inl (Or.inr ⟨h.symm, ht⟩)
  · exact Or.inl (Or.inl h)

/-- The shared counting loop of `by_retention_count`
(`rds_delete_instance_snapshot_action.py` lines 226-236,
`ec2_delete_image_action.py` lines 241-257): `cur` is the owner key of the
current group (`db_instance` and `instance` in the sources, initially
`None`), `cnt` the counter for that group (`count_for_instance`).  On an
owner change the counter restarts at `0` before the increment; the element
is yielded when the incremented counter exceeds `n`. -/
def retention_count_loop {α : Type} (key : α → String) (n : Nat) :
    List α → Option String → Nat → List α
  | [], _, _ => []
  | x :: rest, cur, cnt =>
    if some (key x) ≠ cur then
      if n < 0 + 1 then x :: retention_count_loop key n rest (some (key x)) (0 + 1)
      else retention_count_loop key n rest (some (key x)) (0 + 1)
    else
      if n < cnt + 1 then x :: retention_count_loop key n rest cur (cnt + 1)
      else retention_count_loop key n rest cur (cnt + 1)

/-! ## `rds_delete_instance_snapshot_action.py` -/

namespace RdsDeleteInstanceSnapshot

/-- A manual RDS instance snapshot with status `available`, as produced by
`ACTION_SELECT_EXPRESSION` (lines 68-70), at the point where `execute` runs:
`owner` is `DBInstanceIdentifier` (present on every record processed in
count mode, see `process_and_select_resource`), `time` is
`SnapshotCreateTime` in seconds and `sid` is `DBSnapshotIdentifier`. -/
structure Snap where
  owner : String
  time : Int
  sid : String
deriving DecidableEq, Repr

/-- The sort order of `by_retention_count` (lines 223-225):
`key=lambda s: (s["DBInstanceIdentifier"], get_creation_time(s))`,
`reverse=True`. -/
def snapGE : Snap → Snap → Prop := lexKeyGE Snap.owner Snap.time

instance : DecidableRel snapGE := fun a b =>
  inferInstanceAs (Decidable (lexKeyGE Snap.owner Snap.time a b))

instance : IsTrans Snap snapGE :=
  inferInstanceAs (IsTrans Snap (lexKeyGE Snap.owner Snap.time))

instance : IsTotal Snap snapGE :=
  inferInstanceAs (IsTotal Snap (lexKeyGE Snap.owner Snap.time))

/-- Embeds the `by_retention_count` generator of
`RdsDeleteInstanceSnapshotAction.execute` (lines 220-236). -/
def by_retention_count (snapshots : List Snap) (n : Nat) : List Snap :=
  retention_count_loop Snap.owner n (List.insertionSort snapGE snapshots) none 0

end RdsDeleteInstanceSnapshot

/-! ## `ec2_delete_image_action.py`: count-mode pipeline -/

namespace Ec2DeleteImage

/-- An available AMI as selected by `ACTION_SELECT_EXPRESSION`
(lines 70-71).  `tag` is the value of the source-instance marker tag as
read by `_image_instance` (lines 153-155), whose `tags.get(..., "")`
defaults to the empty string when the tag is absent; `srcInstanceId` is the
optional `SourceInstanceId` key, absent until `process_and_select_resource`
sets it. -/
structure Image where
  imageId : String
  tag : String
  srcInstanceId : Option String
  time : Int
deriving DecidableEq, Repr

/-- Embeds `Ec2DeleteImageAction._image_instance` (lines 153-155). -/
def image_instance (img : Image) : String := img.tag

/-- Embeds `Ec2DeleteImageAction.process_and_select_resource`
(lines 176-185).  The first component is the returned resource (`none`
embeds `return None`); the second is `true` exactly when the skip is logged
with `INFO_NO_SOURCE_INSTANCE_WITH_RETENTION` (line 183).  The code tests
`instance_from_tag not in [None, ""]`; `_image_instance` never returns
`None`, so the test is an inequality with the empty string. -/
def process_and_select_resource (img : Image) (retention_count : Nat) :
    Option Image × Bool :=
  if image_instance img ≠ "" then
    (some { img with srcInstanceId := some (image_instance img) }, false)
  else if retention_count > 0 then (none, true)
  else (some img, false)

/-- The images that survive per-resource selection: the framework keeps
exactly the resources for which `process_and_select_resource` returns a
resource. -/
def candidate_images (images : List Image) (retention_count : Nat) : List Image :=
  images.filterMap (fun img => (process_and_select_resource img retention_count).1)

/-- The sort order of `by_retention_count` (lines 238-240):
`key=lambda s: (s["SourceInstanceId"], get_creation_time(s))`,
`reverse=True`.  In count mode every candidate carries `SourceInstanceId`
(set by `process_and_select_resource`); the `getD` default only makes the
key total. -/
def imageGE : Image → Image → Prop :=
  lexKeyGE (fun img => img.srcInstanceId.getD "") Image.time

instance : DecidableRel imageGE := fun a b => by unfold imageGE; infer_instance

/-- Embeds the `by_retention_count` generator of
`Ec2DeleteImageAction.execute` (lines 235-257); the loop groups on the
marker-tag value `_image_instance(img)`.  The `if img_instance is None:
continue` guard (lines 246-248) is unreachable, because `_image_instance`
returns the empty string for a missing tag, and is not modelled. -/
def by_retention_count (images : List Image) (n : Nat) : List Image :=
  retention_count_loop image_instance n (List.insertionSort imageGE images) none 0

/-- The count-mode deletion set of one run: per-resource selection followed
by the count selector of `execute`. -/
def count_mode_deletion_set (images : List Image) (n : Nat) : List Image :=
  by_retention_count (candidate_images images n) n

end Ec2DeleteImage

/-! ## Lemmas about the counting loop -/

/-- The counting loop yields a sublist of its input: nothing is invented and
order is preserved. -/
theorem retention_count_loop_sublist {α : Type} (key : α → String) (n : Nat) :
    ∀ (s : List α) (cur : Option String) (cnt : Nat),
      List.Sublist (retention_count_loop key n s cur cnt) s := by
  intro s
  induction s with
  | nil => intro cur cnt; rw [retention_count_loop]
  | cons x t ih =>
    intro cur cnt
    rw [retention_count_loop]
    by_cases h1 : some (key x) ≠ cur
    · rw [if_pos h1]
      by_cases h2 : n < 0 + 1
      · rw [if_pos h2]; exact List.Sublist.cons₂ x (ih _ _)
      · rw [if_neg h2]; exact List.Sublist.cons x (ih _ _)
    · rw [if_neg h1]
      by_cases h2 : n < cnt + 1
      · rw [if_pos h2]; exact List.Sublist.cons₂ x (ih _ _)
      · rw [if_neg h2]; exact List.Sublist.cons x (ih _ _)

/-- Mid-run characterization of the counting loop: if the whole remaining
list has keys at most `o` (descending order), the current group is `o` and
`cnt` elements of it were already counted, then the elements of group `o`
yielded from here on are its elements after the first `n - cnt`. -/
theorem retention_count_loop_filter_run {α : Type} (key : α → String) (n : Nat) (o : String) :
    ∀ (s : List α) (cnt : Nat),
      List.Pairwise (fun a b => key b ≤ key a) s →
      (∀ x ∈ s, key x ≤ o) →
      (retention_count_loop key n s (some o) cnt).filter (fun z => key z == o)
        = ((s.filter (fun z => key z == o)).drop (n - cnt)) := by
  intro s
  induction s with
  | nil => intro cnt _ _; simp [retention_count_loop]
  | cons x t ih =>
    intro cnt hp hb
    have hxt := (List.pairwise_cons.mp hp).1
    have hpt := (List.pairwise_cons.mp hp).2
    have hbx : key x ≤ o := hb x (List.mem_cons_self x t)
    have hbt : ∀ y ∈ t, key y ≤ o := fun y hy => hb y (List.mem_cons_of_mem x hy)
    by_cases hxo : key x = o
    · have hcond : ¬(some (key x) ≠ some o) := by simp [hxo]
      have hpos : (key x == o) = true := by simp [hxo]
      have hfp : ∀ l : List α, List.filter (fun z => key z == o) (x :: l)
          = x :: List.filter (fun z => key z == o) l :=
        fun l => List.filter_cons_of_pos hpos
      rw [retention_count_loop, if_neg hcond]
      by_cases hemit : n < cnt + 1
      · rw [if_pos hemit, hfp, ih (cnt + 1) hpt hbt, hfp]
        have h1 : n - cnt = 0 := by omega
        have h2 : n - (cnt + 1) = 0 := by omega
        rw [h1, h2]
        simp
      · rw [if_neg hemit, ih (cnt + 1) hpt hbt, hfp]
        have h1 : n - cnt = (n - (cnt + 1)) + 1 := by omega
        rw [h1, List.drop_succ_cons]
    · have hxlt : key x < o := lt_of_le_of_ne hbx hxo
      have hnone : ∀ y ∈ x :: t, ¬((key y == o) = true) := by
        intro y hy
        rcases List.mem_cons.mp hy with rfl | hy2
        · simp [hxo]
        · have h1 : key y ≤ key x := hxt y hy2
          have h2 : key y ≠ o := ne_of_lt (lt_of_le_of_lt h1 hxlt)
          simp [h2]
      have hL : (retention_count_loop key n (x :: t) (some o) cnt).filter
          (fun z => key z == o) = [] := by
        rw [List.filter_eq_nil_iff]
        intro a ha
        exact hnone a ((retention_count_loop_sublist key n (x :: t) (some o) cnt).subset ha)
      have hR : (x :: t).filter (fun z => key z == o) = [] := by
        rw [List.filter_eq_nil_iff]
        exact hnone
      rw [hL, hR]
      simp

/-- Fresh-state characterization of the counting loop on a list sorted by
descending key: when the loop state names a group other than `o`, the
elements of group `o` that get yielded are exactly those after the first `n`
of the group. -/
theorem retention_count_loop_filter_fresh {α : Type} (key : α → String) (n : Nat) (o : String) :
    ∀ (s : List α) (cur : Option String) (cnt : Nat),
      List.Pairwise (fun a b => key b ≤ key a) s →
      cur ≠ some o →
      (retention_count_loop key n s cur cnt).filter (fun z => key z == o)
        = (s.filter (fun z => key z == o)).drop n := by
  intro s
  induction s with
  | nil => intro cur cnt _ _; simp [retention_count_loop]
  | cons x t ih =>
    intro cur cnt hp hcur
    have hxt := (List.pairwise_cons.mp hp).1
    have hpt := (List.pairwise_cons.mp hp).2
    by_cases hxo : key x = o
    · have hcond : some (key x) ≠ cur := by
        rw [hxo]
        intro h
        exact hcur h.symm
      have hpos : (key x == o) = true := by simp [hxo]
      have hfp : ∀ l : List α, List.filter (fun z => key z == o) (x :: l)
          = x :: List.filter (fun z => key z == o) l :=
        fun l => List.filter_cons_of_pos hpos
      have hbt : ∀ y ∈ t, key y ≤ o := fun y hy => hxo ▸ hxt y hy
      rw [retention_count_loop, if_pos hcond, hxo]
      by_cases hemit : n < 0 + 1
      · have hn : n = 0 := by omega
        rw [if_pos hemit, hfp,
          retention_count_loop_filter_run key n o t (0 + 1) hpt hbt,
          hfp, hn]
        simp
      · rw [if_neg hemit, retention_count_loop_filter_run key n o t (0 + 1) hpt hbt,
          hfp]
        have h1 : n - (0 + 1) = n - 1 := by omega
        have h2 : n = (n - 1) + 1 := by omega
        rw [h1]
        conv_rhs => rw [h2]
        rw [List.drop_succ_cons]
    · have hneg : ¬((key x == o) = true) := by simp [hxo]
      have hfn : ∀ l : List α, List.filter (fun z => key z == o) (x :: l)
          = List.filter (fun z => key z == o) l :=
        fun l => List.filter_cons_of_neg hneg
      rw [retention_count_loop]
      by_cases hcond : some (key x) ≠ cur
      · have hcur2 : some (key x) ≠ some o := fun h => hxo (Option.some.inj h)
        rw [if_pos hcond]
        by_cases hemit : n < 0 + 1
        · rw [if_pos hemit, hfn, ih _ _ hpt hcur2, hfn]
        · rw [if_neg hemit, ih _ _ hpt hcur2, hfn]
      · rw [if_neg hcond]
        by_cases hemit : n < cnt + 1
        · rw [if_pos hemit, hfn, ih _ _ hpt hcur, hfn]
        · rw [if_neg hemit, ih _ _ hpt hcur, hfn]

/-! ## C1: count-mode retention -/

namespace RdsDeleteInstanceSnapshot

/-- The sorted list produced inside `by_retention_count` has weakly
descending owner keys, so each owner group is contiguous. -/
theorem sorted_owner_desc (xs : List Snap) :
    List.Pairwise (fun a b : Snap => b.owner ≤ a.owner)
      (List.insertionSort snapGE xs) := by
  have hs : List.Pairwise snapGE (List.insertionSort snapGE xs) :=
    List.sorted_insertionSort snapGE xs
  refine hs.imp ?_
  intro a b hab
  rcases hab with h | ⟨he, _⟩
  · exact le_of_lt h
  · exact le_of_eq he

/-- Per owner, `by_retention_count` yields exactly the elements after
position `n` of the sorted owner partition. -/
theorem by_retention_count_filter_eq (xs : List Snap) (n : Nat) (o : String) :
    (by_retention_count xs n).filter (fun z => z.owner == o)
      = ((List.insertionSort snapGE xs).filter (fun z => z.owner == o)).drop n :=
  retention_count_loop_filter_fresh Snap.owner n o _ none 0 (sorted_owner_desc xs)
    (by simp)

/-- Within one owner partition of the sorted list, creation times are
weakly descending. -/
theorem partition_sorted_time_desc (xs : List Snap) (o : String) :
    ((List.insertionSort snapGE xs).filter (fun z => z.owner == o)).Pairwise
      (fun a b => b.time ≤ a.time) := by
  have hs : List.Pairwise snapGE (List.insertionSort snapGE xs) :=
    List.sorted_insertionSort snapGE xs
  have hf : List.Pairwise snapGE
      ((List.insertionSort snapGE xs).filter (fun z => z.owner == o)) :=
    hs.filter _
  refine List.Pairwise.imp_of_mem ?_ hf
  intro a b ha hb hab
  have hao : a.owner = o := by simpa using (List.mem_filter.mp ha).2
  have hbo : b.owner = o := by simpa using (List.mem_filter.mp hb).2
  rcases hab with h | ⟨_, ht⟩
  · exact absurd (hao.trans hbo.symm) (ne_of_gt h)
  · exact ht

/-- Each owner partition of the sorted list is a permutation of the
corresponding owner partition of the input. -/
theorem partition_perm (xs : List Snap) (o : String) :
    List.Perm ((List.insertionSort snapGE xs).filter (fun z => z.owner == o))
      (xs.filter (fun z => z.owner == o)) :=
  (List.perm_insertionSort snapGE xs).filter _

/-- Concrete single-owner scenario: creation times `t1 < t2 < t3`; with
`n = 2` exactly the oldest snapshot is yielded, with `n = 0` all three. -/
theorem by_retention_count_three (o : String) (t1 t2 t3 : Int)
    (h12 : t1 < t2) (h23 : t2 < t3) :
    by_retention_count [⟨o, t1, "s1"⟩, ⟨o, t2, "s2"⟩, ⟨o, t3, "s3"⟩] 2
        = [⟨o, t1, "s1"⟩]
    ∧ by_retention_count [⟨o, t1, "s1"⟩, ⟨o, t2, "s2"⟩, ⟨o, t3, "s3"⟩] 0
        = [⟨o, t3, "s3"⟩, ⟨o, t2, "s2"⟩, ⟨o, t1, "s1"⟩] := by
  have h32 : ¬ snapGE (⟨o, t2, "s2"⟩ : Snap) ⟨o, t3, "s3"⟩ := by
    simp [snapGE, lexKeyGE]
    omega
  have h31 : ¬ snapGE (⟨o, t1, "s1"⟩ : Snap) ⟨o, t3, "s3"⟩ := by
    simp [snapGE, lexKeyGE]
    omega
  have h21 : ¬ snapGE (⟨o, t1, "s1"⟩ : Snap) ⟨o, t2, "s2"⟩ := by
    simp [snapGE, lexKeyGE]
    omega
  have hs : List.insertionSort snapGE
      [(⟨o, t1, "s1"⟩ : Snap), ⟨o, t2, "s2"⟩, ⟨o, t3, "s3"⟩]
      = [⟨o, t3, "s3"⟩, ⟨o, t2, "s2"⟩, ⟨o, t1, "s1"⟩] := by
    simp [List.insertionSort, List.orderedInsert, h32, h31, h21]
  constructor
  · unfold by_retention_count
    rw [hs]
    simp [retention_count_loop]
  · unfold by_retention_count
    rw [hs]
    simp [retention_count_loop]

end RdsDeleteInstanceSnapshot

/-- C1: for every input list and count policy `KeepCount n`,
`by_retention_count` partitions by owner key and, per owner `o`, yields
exactly the elements after position `n` of the owner partition sorted by
creation time descending: the yielded elements of owner `o` are
`(sorted partition).drop n`, where the sorted partition has weakly
descending creation times and is a permutation of the input partition.
In particular, for one owner group with creation times `t1 < t2 < t3`,
`n = 2` yields exactly the artifact at `t1`, and `n = 0` yields the whole
partition. -/
theorem rds_count_mode_selects_positions_beyond_n
    (xs : List RdsDeleteInstanceSnapshot.Snap) (n : Nat) (o : String)
    (t1 t2 t3 : Int) (h12 : t1 < t2) (h23 : t2 < t3) :
    ((RdsDeleteInstanceSnapshot.by_retention_count xs n).filter
          (fun z => z.owner == o)
        = ((List.insertionSort RdsDeleteInstanceSnapshot.snapGE xs).filter
            (fun z => z.owner == o)).drop n)
    ∧ ((List.insertionSort RdsDeleteInstanceSnapshot.snapGE xs).filter
          (fun z => z.owner == o)).Pairwise (fun a b => b.time ≤ a.time)
    ∧ List.Perm
        ((List.insertionSort RdsDeleteInstanceSnapshot.snapGE xs).filter
          (fun z => z.owner == o))
        (xs.filter (fun z => z.owner == o))
    ∧ RdsDeleteInstanceSnapshot.by_retention_count
        [⟨o, t1, "s1"⟩, ⟨o, t2, "s2"⟩, ⟨o, t3, "s3"⟩] 2 = [⟨o, t1, "s1"⟩]
    ∧ RdsDeleteInstanceSnapshot.by_retention_count
        [⟨o, t1, "s1"⟩, ⟨o, t2, "s2"⟩, ⟨o, t3, "s3"⟩] 0
        = [⟨o, t3, "s3"⟩, ⟨o, t2, "s2"⟩, ⟨o, t1, "s1"⟩] :=
  ⟨RdsDeleteInstanceSnapshot.by_retention_count_filter_eq xs n o,
    RdsDeleteInstanceSnapshot.partition_sorted_time_desc xs o,
    RdsDeleteInstanceSnapshot.partition_perm xs o,
    (RdsDeleteInstanceSnapshot.by_retention_count_three o t1 t2 t3 h12 h23).1,
    (RdsDeleteInstanceSnapshot.by_retention_count_three o t1 t2 t3 h12 h23).2⟩

/-- Witness for C1 at a concrete input. -/
theorem rds_count_mode_selects_positions_beyond_n_witness :
    RdsDeleteInstanceSnapshot.by_retention_count
        [⟨"db1", 0, "s1"⟩, ⟨"db1", 1, "s2"⟩, ⟨"db1", 2, "s3"⟩] 2
      = [⟨"db1", 0, "s1"⟩]
    ∧ RdsDeleteInstanceSnapshot.by_retention_count
        [⟨"db1", 0, "s1"⟩, ⟨"db1", 1, "s2"⟩, ⟨"db1", 2, "s3"⟩] 0
      = [⟨"db1", 2, "s3"⟩, ⟨"db1", 1, "s2"⟩, ⟨"db1", 0, "s1"⟩] :=
  ⟨(rds_count_mode_selects_positions_beyond_n [] 2 "db1" 0 1 2
      (by decide) (by decide)).2.2.2.1,
    (rds_count_mode_selects_positions_beyond_n [] 0 "db1" 0 1 2
      (by decide) (by decide)).2.2.2.2⟩

/-! ## C2: age-mode retention -/

/-- C2: under an age policy of `days` days, a backup is selected for
deletion exactly when its creation time is strictly less than
`now - days` (in seconds, `days * 86400`); a backup whose creation time
equals the cutoff is never selected.  The characterization mentions no
owner, so selection is independent of any owner group. -/
theorem dynamodb_age_mode_strict_cutoff
    (table_backups : List DynamodbDeleteBackup.Backup) (now : Int) (days : Nat)
    (bk : DynamodbDeleteBackup.Backup) :
    (bk ∈ DynamodbDeleteBackup.by_retention_days table_backups now days
        ↔ bk ∈ table_backups ∧ bk.time < now - days * 86400)
    ∧ (bk.time = now - days * 86400 →
        bk ∉ DynamodbDeleteBackup.by_retention_days table_backups now days) := by
  have hiff : bk ∈ DynamodbDeleteBackup.by_retention_days table_backups now days
      ↔ bk ∈ table_backups ∧ bk.time < now - days * 86400 := by
    simp [DynamodbDeleteBackup.by_retention_days]
  refine ⟨hiff, fun heq hmem => ?_⟩
  have hlt := (hiff.mp hmem).2
  omega

/-- Witness for C2: a backup created exactly at the cutoff is not deleted. -/
theorem dynamodb_age_mode_strict_cutoff_witness :
    (⟨"bk1", "arn1", 86400⟩ : DynamodbDeleteBackup.Backup) ∉
      DynamodbDeleteBackup.by_retention_days [⟨"bk1", "arn1", 86400⟩] 172800 1 :=
  (dynamodb_age_mode_strict_cutoff [⟨"bk1", "arn1", 86400⟩] 172800 1
    ⟨"bk1", "arn1", 86400⟩).2 (by decide)

/-! ## C3: retention parameter validation -/

/-- C3 counterexample: the claim states that a parameter set with exactly
one of the two retention parameters present is accepted, including
`KeepCount` with `n = 0`.  With `RetentionDays` absent and
`RetentionCount = 0` exactly one parameter is set, yet the code raises the
neither-set configuration error, because Python truthiness treats `0` as
unset. -/
theorem retention_validation_rejects_zero_count_alone :
    DynamodbDeleteBackup.action_validate_parameters none (some 0)
      = Except.error DynamodbDeleteBackup.ERR_RETENTION_PARAM_NONE := rfl

/-- C3 amended: validation raises a configuration error exactly when both
retention parameters are effectively set or neither is, where a parameter
counts as set only when it is present with a nonzero value: acceptance is
exactly one of `AgeThreshold` with `days > 0` or `KeepCount` with `n > 0`;
`KeepCount` with `n = 0` alone is rejected as neither-set. -/
theorem retention_validation_accepts_exactly_one_nonzero
    (days count : Option Nat) :
    DynamodbDeleteBackup.action_validate_parameters days count
        = Except.ok (days, count)
      ↔ Xor' (∃ d, days = some d ∧ 0 < d) (∃ c, count = some c ∧ 0 < c) := by
  have hd : (∃ d, days = some d ∧ 0 < d) ↔ pythonTruthy days = true := by
    cases days with
    | none => simp [pythonTruthy]
    | some d =>
      simp only [pythonTruthy, Option.some.injEq, ne_eq]
      constructor
      · rintro ⟨d2, hd2, hpos⟩
        cases hd2
        simpa using Nat.pos_iff_ne_zero.mp hpos
      · intro h
        exact ⟨d, rfl, Nat.pos_of_ne_zero (by simpa using h)⟩
  have hc : (∃ c, count = some c ∧ 0 < c) ↔ pythonTruthy count = true := by
    cases count with
    | none => simp [pythonTruthy]
    | some c =>
      simp only [pythonTruthy, Option.some.injEq, ne_eq]
      constructor
      · rintro ⟨c2, hc2, hpos⟩
        cases hc2
        simpa using Nat.pos_iff_ne_zero.mp hpos
      · intro h
        exact ⟨c, rfl, Nat.pos_of_ne_zero (by simpa using h)⟩
  rw [Xor', hd, hc]
  unfold DynamodbDeleteBackup.action_validate_parameters
  by_cases h1 : pythonTruthy count = true <;> by_cases h2 : pythonTruthy days = true <;>
    simp [h1, h2]

/-! ## C10: the deletion loop of `execute` -/

/-- C10: in the DynamoDB delete-backup `execute`, a failing delete of one
backup is caught, every backup of the deletion set is still processed, the
returned `backups-deleted` list is exactly the subsequence of the deletion
set whose delete call succeeded, the logged errors are exactly the failed
ones, and every backup of the deletion set is accounted for by one of the
two (so no failure escapes the loop). -/
theorem dynamodb_execute_deletes_exactly_successful
    (table_backups : List DynamodbDeleteBackup.Backup) (days count : Option Nat)
    (now : Int) (del_call : DynamodbDeleteBackup.Backup → Except String Unit) :
    (DynamodbDeleteBackup.execute table_backups days count now del_call).1
        = (DynamodbDeleteBackup.backups_to_delete table_backups days count now).filter
            (fun bk => match del_call bk with
              | Except.ok _ => true
              | Except.error _ => false)
    ∧ (DynamodbDeleteBackup.execute table_backups days count now del_call).2
        = (DynamodbDeleteBackup.backups_to_delete table_backups days count now).filterMap
            (fun bk => match del_call bk with
              | Except.ok _ => none
              | Except.error e => some (bk, e))
    ∧ (DynamodbDeleteBackup.execute table_backups days count now del_call).1.length
        + (DynamodbDeleteBackup.execute table_backups days count now del_call).2.length
        = (DynamodbDeleteBackup.backups_to_delete table_backups days count now).length := by
  unfold DynamodbDeleteBackup.execute
  generalize DynamodbDeleteBackup.backups_to_delete table_backups days count now = l
  induction l with
  | nil => simp [DynamodbDeleteBackup.execute_deletions]
  | cons bk rest ih =>
    rcases ih with ⟨ih1, ih2, ih3⟩
    rw [DynamodbDeleteBackup.execute_deletions]
    cases hdel : del_call bk with
    | ok u =>
      refine ⟨?_, ?_, ?_⟩
      · simp [hdel, ih1]
      · simp [hdel, ih2]
      · simp [hdel]
        omega
    | error e =>
      refine ⟨?_, ?_, ?_⟩
      · simp [hdel, ih1]
      · simp [hdel, ih2]
      · simp [hdel]
        omega

/-! ## C4: unresolvable owner under count mode -/

/-- C4: under a count-based policy (`retention_count > 0`), an image whose
owner cannot be resolved (no source-marker tag, hence an empty
`_image_instance` value; EC2 images carry no provider-reported parent id at
all) is dropped by `process_and_select_resource` with the skip logged, and
such an image is never an element of the count-mode deletion set, whatever
the rest of the input is. -/
theorem ec2_unresolved_owner_excluded_from_count_mode
    (n : Nat) (hn : 0 < n) (img : Ec2DeleteImage.Image) (himg : img.tag = "") :
    Ec2DeleteImage.process_and_select_resource img n = (none, true)
    ∧ ∀ images : List Ec2DeleteImage.Image,
        img ∉ Ec2DeleteImage.count_mode_deletion_set images n := by
  have hstep : Ec2DeleteImage.process_and_select_resource img n = (none, true) := by
    unfold Ec2DeleteImage.process_and_select_resource Ec2DeleteImage.image_instance
    rw [himg]
    simp [hn]
  refine ⟨hstep, fun images hmem => ?_⟩
  have h1 : img ∈ List.insertionSort Ec2DeleteImage.imageGE
      (Ec2DeleteImage.candidate_images images n) :=
    (retention_count_loop_sublist Ec2DeleteImage.image_instance n _ none 0).subset hmem
  have h2 : img ∈ Ec2DeleteImage.candidate_images images n :=
    (List.perm_insertionSort Ec2DeleteImage.imageGE _).mem_iff.mp h1
  rcases List.mem_filterMap.mp h2 with ⟨a, _, hpa⟩
  by_cases hat : a.tag = ""
  · unfold Ec2DeleteImage.process_and_select_resource Ec2DeleteImage.image_instance at hpa
    rw [hat] at hpa
    simp [hn] at hpa
  · unfold Ec2DeleteImage.process_and_select_resource Ec2DeleteImage.image_instance at hpa
    rw [if_pos hat] at hpa
    have heq : { a with srcInstanceId := some a.tag } = img := by simpa using hpa
    have htag : img.tag = a.tag := by rw [← heq]
    exact hat (htag ▸ himg)

/-- Witness for C4 at a concrete input. -/
theorem ec2_unresolved_owner_excluded_from_count_mode_witness :
    Ec2DeleteImage.process_and_select_resource ⟨"ami-1", "", none, 0⟩ 2 = (none, true)
    ∧ (⟨"ami-1", "", none, 0⟩ : Ec2DeleteImage.Image) ∉
        Ec2DeleteImage.count_mode_deletion_set
          [⟨"ami-1", "", none, 0⟩, ⟨"ami-2", "i-1", none, 5⟩] 2 := by
  have h := ec2_unresolved_owner_excluded_from_count_mode 2 (by decide)
    ⟨"ami-1", "", none, 0⟩ rfl
  exact ⟨h.1, h.2 _⟩

/-! ## C5: idempotency marker claim protocol -/

/-- C5: with a parsable marker of write time `t`, the claim attempt skips
the resource (already in flight) exactly when the marker age is below the
action timeout, and proceeds (resume) when the age is at least the timeout;
with no marker the resource is selected and `execute` writes a fresh marker
as its first call. -/
theorem terminate_marker_claim_protocol (t now timeoutMin : Int)
    (create_image : Bool) :
    (now - t < timeoutMin * 60 →
        Ec2TerminateInstance.process_and_select_resource
          (some (Ec2TerminateInstance.MarkerDt.parsed t)) now timeoutMin = false)
    ∧ (timeoutMin * 60 ≤ now - t →
        Ec2TerminateInstance.process_and_select_resource
          (some (Ec2TerminateInstance.MarkerDt.parsed t)) now timeoutMin = true)
    ∧ Ec2TerminateInstance.process_and_select_resource none now timeoutMin = true
    ∧ (Ec2TerminateInstance.execute_effects create_image).head?
        = some Ec2TerminateInstance.Eff.setTerminationMarker := by
  refine ⟨fun h => ?_, fun h => ?_, rfl, rfl⟩
  · simp [Ec2TerminateInstance.process_and_select_resource, h]
  · simp [Ec2TerminateInstance.process_and_select_resource, not_lt.mpr h]

/-- Witness for C5: age 10 with a 1 minute timeout skips; age 60 (equal to
the timeout) proceeds. -/
theorem terminate_marker_claim_protocol_witness :
    Ec2TerminateInstance.process_and_select_resource
        (some (Ec2TerminateInstance.MarkerDt.parsed 0)) 10 1 = false
    ∧ Ec2TerminateInstance.process_and_select_resource
        (some (Ec2TerminateInstance.MarkerDt.parsed 0)) 60 1 = true :=
  ⟨(terminate_marker_claim_protocol 0 10 1 true).1 (by decide),
    (terminate_marker_claim_protocol 0 60 1 true).2.1 (by decide)⟩

/-! ## C6: unparsable marker -/

/-- C6 counterexample: the claim states that a present but unparsable
marker is treated as absent, so the claim proceeds and the resource is
selected (`true`).  The code instead falls back to `utcnow` for the marker
time, computes age `0`, which is below the timeout, and skips the resource
(`false`). -/
theorem terminate_unparsable_marker_skips :
    Ec2TerminateInstance.process_and_select_resource
        (some Ec2TerminateInstance.MarkerDt.unparsable) 1000 60 = false := by
  decide

/-- C6 amended: a present marker whose datetime value cannot be parsed is
treated as written at the current time (age `0`), so as long as the corrupt
marker remains and the timeout is positive, the claim attempt reports the
operation as already in flight and the resource is skipped, not selected. -/
theorem terminate_unparsable_marker_treated_as_fresh (now timeoutMin : Int)
    (h : 0 < timeoutMin) :
    Ec2TerminateInstance.process_and_select_resource
        (some Ec2TerminateInstance.MarkerDt.unparsable) now timeoutMin = false := by
  simp [Ec2TerminateInstance.process_and_select_resource]
  omega

/-- Witness for the amended C6. -/
theorem terminate_unparsable_marker_treated_as_fresh_witness :
    Ec2TerminateInstance.process_and_select_resource
        (some Ec2TerminateInstance.MarkerDt.unparsable) 5 1 = false :=
  terminate_unparsable_marker_treated_as_fresh 5 1 (by decide)

/-! ## C7: terminal-failure image status -/

/-- C7: when polling observes image state `failed`, `error` or `invalid`
(and the instance is in none of the terminated, shutting-down or stopping
states, so the image is inspected), `is_completed` issues exactly the
marker-tag delete and raises the image-creation failure: it neither
returns `None` nor reports success. -/
theorem terminate_image_failure_clears_marker_then_raises
    (e : Ec2TerminateInstance.PollEnv)
    (h1 : e.instStateCode % 256 ≠ Ec2TerminateInstance.EC2_STATE_TERMINATED)
    (h2 : e.instStateCode % 256 ≠ Ec2TerminateInstance.EC2_STATE_SHUTTING_DOWN)
    (h3 : e.instStateCode % 256 ≠ Ec2TerminateInstance.EC2_STATE_STOPPING)
    (hc : e.create_image = true) (st : String)
    (him : e.imageState = some st)
    (hf : st = "failed" ∨ st = "error" ∨ st = "invalid") :
    Ec2TerminateInstance.is_completed e
        = ([Ec2TerminateInstance.Eff.deleteMarker],
            Ec2TerminateInstance.Outcome.failed
              Ec2TerminateInstance.ERR_CREATING_IMAGE)
    ∧ (Ec2TerminateInstance.is_completed e).2 ≠ Ec2TerminateInstance.Outcome.pending
    ∧ (Ec2TerminateInstance.is_completed e).2 ≠ Ec2TerminateInstance.Outcome.success := by
  have hpend : ¬ st = "pending" := by
    rcases hf with h | h | h <;> simp [h]
  have heq : Ec2TerminateInstance.is_completed e
      = ([Ec2TerminateInstance.Eff.deleteMarker],
          Ec2TerminateInstance.Outcome.failed
            Ec2TerminateInstance.ERR_CREATING_IMAGE) := by
    unfold Ec2TerminateInstance.is_completed
    rw [if_neg h1, if_neg (by push_neg; exact ⟨h2, h3⟩), hc, him]
    simp [hpend, hf]
  exact ⟨heq, by rw [heq]; simp, by rw [heq]; simp⟩

/-- Witness for C7: a running instance (state code 16) with image state
`failed`. -/
theorem terminate_image_failure_clears_marker_then_raises_witness :
    Ec2TerminateInstance.is_completed
        ⟨16, true, some "failed", false, true, 0, true, true⟩
      = ([Ec2TerminateInstance.Eff.deleteMarker],
          Ec2TerminateInstance.Outcome.failed
            Ec2TerminateInstance.ERR_CREATING_IMAGE) :=
  (terminate_image_failure_clears_marker_then_raises
    ⟨16, true, some "failed", false, true, 0, true, true⟩
    (by decide) (by decide) (by decide) rfl "failed" rfl (Or.inl rfl)).1

/-! ## C8: failure of a secondary finalization step -/

/-- C8 counterexample: the instance is already terminated (the primary
operation succeeded) and setting the configured instance tags fails.  The
claim states the run outcome is still reported as success with the
secondary failure attached; the code raises instead, so the poll outcome
is a failure and not success. -/
theorem terminate_secondary_tag_failure_reports_failure :
    (Ec2TerminateInstance.is_completed
        ⟨48, true, none, true, false, 0, true, true⟩).2
        = Ec2TerminateInstance.Outcome.failed
            Ec2TerminateInstance.ERR_SETTING_INSTANCE_TAGS
    ∧ (Ec2TerminateInstance.is_completed
        ⟨48, true, none, true, false, 0, true, true⟩).2
        ≠ Ec2TerminateInstance.Outcome.success :=
  ⟨rfl, by decide⟩

/-- C8 amended: when the instance has reached the terminated state and the
secondary tagging step fails, `is_completed` raises the tagging error, so
the run is reported failed with that error; the failure does not reverse or
re-run the primary operation: no terminate call and no image creation is
issued in that poll. -/
theorem terminate_secondary_tag_failure_fails_without_rerun
    (e : Ec2TerminateInstance.PollEnv)
    (h48 : e.instStateCode % 256 = Ec2TerminateInstance.EC2_STATE_TERMINATED)
    (ht : e.hasInstanceTags = true) (hfail : e.tagSetOk = false) :
    Ec2TerminateInstance.is_completed e
        = ([Ec2TerminateInstance.Eff.setInstanceTags],
            Ec2TerminateInstance.Outcome.failed
              Ec2TerminateInstance.ERR_SETTING_INSTANCE_TAGS)
    ∧ Ec2TerminateInstance.Eff.terminateInstances
        ∉ (Ec2TerminateInstance.is_completed e).1
    ∧ Ec2TerminateInstance.Eff.createImage
        ∉ (Ec2TerminateInstance.is_completed e).1 := by
  have heq : Ec2TerminateInstance.is_completed e
      = ([Ec2TerminateInstance.Eff.setInstanceTags],
          Ec2TerminateInstance.Outcome.failed
            Ec2TerminateInstance.ERR_SETTING_INSTANCE_TAGS) := by
    unfold Ec2TerminateInstance.is_completed
    rw [if_pos h48, ht, hfail]
    simp
  exact ⟨heq, by rw [heq]; simp, by rw [heq]; simp⟩

/-- Witness for the amended C8. -/
theorem terminate_secondary_tag_failure_fails_without_rerun_witness :
    Ec2TerminateInstance.is_completed ⟨48, true, none, true, false, 0, true, true⟩
      = ([Ec2TerminateInstance.Eff.setInstanceTags],
          Ec2TerminateInstance.Outcome.failed
            Ec2TerminateInstance.ERR_SETTING_INSTANCE_TAGS) :=
  (terminate_secondary_tag_failure_fails_without_rerun
    ⟨48, true, none, true, false, 0, true, true⟩ rfl rfl rfl).1

/-! ## C9: timestamp normalization -/

/-- C9 (code evaluated at the failing input): for an image record whose
`CreationDate` arrives as a structured datetime, `get_creation_time`
returns `s["StartTime"]`, a key the select expression of this action never
produces, so the lookup raises `KeyError` instead of producing a
normalized timestamp; the string shape, in contrast, parses fine.  The
claim that both shapes are normalized and never fail is broken by the
datetime shape. -/
theorem ec2_get_creation_time_datetime_keyerror :
    Ec2DeleteImage.get_creation_time (fun _ => 0)
        { imageId := "ami-1", creationDate := Ec2DeleteImage.TimeValue.dt 0,
          startTime := none }
      = Except.error "KeyError: StartTime"
    ∧ Ec2DeleteImage.get_creation_time (fun _ => 42)
        { imageId := "ami-1",
          creationDate := Ec2DeleteImage.TimeValue.str "2019-01-01T00:00:00Z",
          startTime := none }
      = Except.ok 42 :=
  ⟨rfl, rfl⟩

end OpsAutomator
